import Mathlib

/-!
Verification of the keystroke-biometrics analysis pipeline.

The development shallowly embeds the core of the repository:
  * `utils/features.py` — `compute_features`: per-session hold/flight/speed
    statistics of a keystroke event table;
  * `utils/authentication.py` — `get_user_templates` and `compute_scores`:
    per-user template building and genuine/impostor distance scoring.

Timestamps are embedded as exact rationals (the source holds integer
milliseconds in float64 columns, which is exact for this data).  A pandas
`NaN` cell is embedded as `none` of an `Option` type; all pandas reductions
(`mean`, `std`, `DataFrame.mean`) are modelled with their actual NaN
semantics (`Series.mean`/`Series.std` of an empty/short column give NaN;
`DataFrame.mean` skips NaN entries by default).  Square roots land in `ℝ`.
-/

/-- One keystroke event row of a raw session table
(`t_down_ms`, `t_up_ms`, `order_index` columns of `features.py`). -/
structure Event where
  t_down_ms : ℚ
  t_up_ms : ℚ
  order_index : ℤ
deriving DecidableEq, Repr

/-- A row after STEP 2 and STEP 3a-3b of `compute_features`: the original
columns plus the derived `hold_time` and `flight_time` columns
(`flight_time` is `none` on the last row, where `shift(-1)` produced NaN). -/
structure Row where
  t_down_ms : ℚ
  t_up_ms : ℚ
  order_index : ℤ
  hold_time : ℚ
  flight_time : Option ℚ
deriving DecidableEq, Repr

/-- A row that survived `df.dropna(subset=["flight_time"])`: its
`flight_time` is an actual number. -/
structure ProcRow where
  t_down_ms : ℚ
  t_up_ms : ℚ
  order_index : ℤ
  hold_time : ℚ
  flight_time : ℚ
deriving DecidableEq, Repr

/-- The dictionary returned by `compute_features`.  `mean`/`typing_speed`
values are exact rationals; the `std` fields carry a real square root.
`none` is pandas NaN. -/
structure SessionFeatureVector where
  mean_hold : Option ℚ
  std_hold : Option ℝ
  mean_flight : Option ℚ
  std_flight : Option ℝ
  typing_speed : Option ℚ

/-- Sort key of STEP 1: `df.sort_values("order_index")`. -/
def evLe (a b : Event) : Prop := a.order_index ≤ b.order_index

instance : DecidableRel evLe := fun _ _ => inferInstanceAs (Decidable (_ ≤ _))

instance : IsTotal Event evLe := ⟨fun a b => le_total a.order_index b.order_index⟩

instance : IsTrans Event evLe := ⟨fun _ _ _ h h' => le_trans h h'⟩

/-- The `next_t_down` column: `df["t_down_ms"].shift(-1)` — every row sees
the next row's press time, the last row sees NaN. -/
def shiftNextDown : List Event → List (Option ℚ)
  | [] => []
  | _ :: t => t.map (fun e => some e.t_down_ms) ++ [none]

/-- STEP 2 and STEP 3a-3b: add the `hold_time` column
(`t_up_ms - t_down_ms`) and the `flight_time` column
(`next_t_down - t_up_ms`). -/
def addHoldFlight (df : List Event) : List Row :=
  List.zipWith
    (fun e nd =>
      { t_down_ms := e.t_down_ms
        t_up_ms := e.t_up_ms
        order_index := e.order_index
        hold_time := e.t_up_ms - e.t_down_ms
        flight_time := nd.map (fun d => d - e.t_up_ms) })
    df (shiftNextDown df)

/-- STEP 3c: `df.dropna(subset=["flight_time"])` keeps exactly the rows
whose `flight_time` is a number. -/
def dropnaFlight (rows : List Row) : List ProcRow :=
  rows.filterMap (fun r =>
    r.flight_time.map (fun f =>
      { t_down_ms := r.t_down_ms
        t_up_ms := r.t_up_ms
        order_index := r.order_index
        hold_time := r.hold_time
        flight_time := f }))

/-- `Series.mean()`: NaN on an empty column, the arithmetic mean
otherwise. -/
def pandasMean (xs : List ℚ) : Option ℚ :=
  if xs.length = 0 then none else some (xs.sum / xs.length)

/-- The sample variance behind `Series.std()` (ddof = 1): NaN when fewer
than two values are present. -/
def sampleVar (xs : List ℚ) : Option ℚ :=
  if xs.length < 2 then none
  else some ((xs.map (fun x => (x - xs.sum / xs.length) ^ 2)).sum / ((xs.length : ℚ) - 1))

/-- `Series.std()` (default ddof = 1): the square root of the sample
variance, NaN when fewer than two values are present. -/
noncomputable def pandasStd (xs : List ℚ) : Option ℝ :=
  (sampleVar xs).map (fun v => Real.sqrt (v : ℝ))

/-- `Series.max()` of a nonempty column (`compute_features` only reduces
columns of length ≥ 2; the `[]` case is unreachable there). -/
def listMax : List ℚ → ℚ
  | [] => 0
  | x :: xs => xs.foldl max x

/-- `Series.min()` of a nonempty column (see `listMax`). -/
def listMin : List ℚ → ℚ
  | [] => 0
  | x :: xs => xs.foldl min x

/-- STEP 2 onwards of `compute_features`, applied to the already-sorted
frame: derive columns, drop the NaN flight row, guard `len(df) < 2`, and
aggregate. -/
noncomputable def featuresOfSorted (df1 : List Event) : SessionFeatureVector :=
  let df := dropnaFlight (addHoldFlight df1)
  if df.length < 2 then
    { mean_hold := none, std_hold := none, mean_flight := none
      std_flight := none, typing_speed := none }
  else
    let duration_ms := listMax (df.map (·.t_up_ms)) - listMin (df.map (·.t_down_ms))
    let typing_speed : Option ℚ :=
      if duration_ms ≤ 0 then none else some ((df.length : ℚ) / (duration_ms / 1000))
    { mean_hold := pandasMean (df.map (·.hold_time))
      std_hold := pandasStd (df.map (·.hold_time))
      mean_flight := pandasMean (df.map (·.flight_time))
      std_flight := pandasStd (df.map (·.flight_time))
      typing_speed := typing_speed }

/-- `compute_features` of `utils/features.py`: sort by `order_index`, then
run the column pipeline. -/
noncomputable def compute_features (df0 : List Event) : SessionFeatureVector :=
  featuresOfSorted (List.insertionSort evLe df0)

/-- The all-NaN feature dictionary returned by the `len(df) < 2` guard. -/
def nanFeatures : SessionFeatureVector :=
  { mean_hold := none, std_hold := none, mean_flight := none
    std_flight := none, typing_speed := none }

/-!
Embedding of `utils/authentication.py`.  A row of `features.csv` carries
the session metadata plus the five `FEATURE_COLUMNS`; any of the five may
be NaN (`none`).
-/

/-- One row of the processed feature table consumed by
`utils/authentication.py`. -/
structure FeatureRow where
  participant_id : String
  session_id : ℤ
  condition : String
  task_type : String
  mean_hold : Option ℚ
  std_hold : Option ℚ
  mean_flight : Option ℚ
  std_flight : Option ℚ
  typing_speed : Option ℚ
deriving DecidableEq, Repr

/-- A 5-dimensional feature vector over the `FEATURE_COLUMNS`, as used for
templates and session vectors. -/
structure FeatureVec where
  mean_hold : Option ℚ
  std_hold : Option ℚ
  mean_flight : Option ℚ
  std_flight : Option ℚ
  typing_speed : Option ℚ
deriving DecidableEq, Repr

/-- `row[FEATURE_COLUMNS]`: the 5-vector carried by a feature row. -/
def rowVec (r : FeatureRow) : FeatureVec :=
  { mean_hold := r.mean_hold, std_hold := r.std_hold, mean_flight := r.mean_flight
    std_flight := r.std_flight, typing_speed := r.typing_speed }

/-- The components of a feature vector in `FEATURE_COLUMNS` order. -/
def FeatureVec.comps (v : FeatureVec) : List (Option ℚ) :=
  [v.mean_hold, v.std_hold, v.mean_flight, v.std_flight, v.typing_speed]

/-- `DataFrame.mean()` down a single column: NaN entries are skipped
(pandas default `skipna=True`); the result is NaN only when no numeric
entry remains. -/
def pandasMeanSkipna (xs : List (Option ℚ)) : Option ℚ :=
  let vals := xs.filterMap id
  if vals.length = 0 then none else some (vals.sum / vals.length)

/-- `morning_df[FEATURE_COLUMNS].mean()`: the element-wise column mean of
a set of feature rows. -/
def meanVec (rows : List FeatureRow) : FeatureVec :=
  { mean_hold := pandasMeanSkipna (rows.map (·.mean_hold))
    std_hold := pandasMeanSkipna (rows.map (·.std_hold))
    mean_flight := pandasMeanSkipna (rows.map (·.mean_flight))
    std_flight := pandasMeanSkipna (rows.map (·.std_flight))
    typing_speed := pandasMeanSkipna (rows.map (·.typing_speed)) }

/-- Helper of `pandasUnique`: keep each value's first occurrence, skipping
values already seen. -/
def pandasUniqueGo : List String → List String → List String
  | [], _ => []
  | x :: xs, seen =>
    if x ∈ seen then pandasUniqueGo xs seen else x :: pandasUniqueGo xs (x :: seen)

/-- `Series.unique()`: the distinct values in first-occurrence order. -/
def pandasUnique (xs : List String) : List String := pandasUniqueGo xs []

/-- `get_user_templates` of `utils/authentication.py`: for each distinct
participant, filter to their `"Morning"` (enrollment) sessions; skip the
participant when none exist, otherwise store the column-mean template. -/
def get_user_templates (df : List FeatureRow) : List (String × FeatureVec) :=
  (pandasUnique (df.map (·.participant_id))).filterMap (fun pid =>
    let user_df := df.filter (fun r => decide (r.participant_id = pid))
    let morning_df := user_df.filter (fun r => decide (r.condition = "Morning"))
    if morning_df.length = 0 then none
    else some (pid, meanVec morning_df))

/-- Float subtraction of two possibly-NaN cells: NaN propagates. -/
def nanSub : Option ℚ → Option ℚ → Option ℚ
  | some a, some b => some (a - b)
  | _, _ => none

/-- Running sum of squares of possibly-NaN differences: NaN propagates
through float addition and multiplication. -/
def nanSumSq (xs : List (Option ℚ)) : Option ℚ :=
  xs.foldl
    (fun acc d =>
      match acc, d with
      | some s, some x => some (s + x * x)
      | _, _ => none)
    (some 0)

/-- `scipy.spatial.distance.euclidean` on two 5-vectors: the L2 norm of
the component-wise difference; NaN in any component makes the result
NaN. -/
noncomputable def euclidean (u v : FeatureVec) : Option ℝ :=
  (nanSumSq (List.zipWith nanSub u.comps v.comps)).map (fun s => Real.sqrt (s : ℝ))

/-- `compute_scores` of `utils/authentication.py`: for each template (in
dictionary order), distances to the same participant's rows go to the
genuine list and distances to every other row go to the impostor list. -/
noncomputable def compute_scores (df : List FeatureRow)
    (templates : List (String × FeatureVec)) : List (Option ℝ) × List (Option ℝ) :=
  (templates.flatMap (fun t =>
      (df.filter (fun r => decide (r.participant_id = t.1))).map
        (fun r => euclidean t.2 (rowVec r))),
   templates.flatMap (fun t =>
      (df.filter (fun r => decide (¬r.participant_id = t.1))).map
        (fun r => euclidean t.2 (rowVec r))))

/-!  Concrete fixtures used in the theorems below. -/

/-- The spec's two-event example session: `t_down=[1000,1300]`,
`t_up=[1150,1450]`, `order_index=[0,1]`. -/
def specPairSession : List Event := [⟨1000, 1150, 0⟩, ⟨1300, 1450, 1⟩]

/-- A three-event session: `t_down=[0,100,200]`, `t_up=[50,150,280]`,
hold times `[50,50,80]`, full-session duration `280`. -/
def sessionA : List Event := [⟨0, 50, 0⟩, ⟨100, 150, 1⟩, ⟨200, 280, 2⟩]

/-- A one-event session. -/
def singleSession : List Event := [⟨5, 9, 0⟩]

/-- A two-event session other than the spec's example. -/
def pairSession : List Event := [⟨0, 30, 0⟩, ⟨100, 160, 1⟩]

/-- A three-event session listed out of chronological order. -/
def shuffledSession : List Event := [⟨100, 150, 1⟩, ⟨200, 280, 2⟩, ⟨0, 50, 0⟩]

/-- A feature row of participant `A` with a NaN `mean_hold`. -/
def rowNanHold : FeatureRow :=
  ⟨"A", 1, "Morning", "fixed", none, some 1, some 1, some 1, some 1⟩

/-- A feature row of participant `A` with every column defined. -/
def rowFullHold : FeatureRow :=
  ⟨"A", 2, "Morning", "fixed", some 100, some 1, some 1, some 1, some 1⟩

/-- A feature row whose five feature columns are all NaN (as produced for
a degenerate session). -/
def rowAllNan : FeatureRow :=
  ⟨"A", 1, "Morning", "fixed", none, none, none, none, none⟩

/-- A feature row for participant `A` with a NaN column, used for the
amended-template witness. -/
def rowHalfNan : FeatureRow :=
  ⟨"A", 1, "Morning", "fixed", none, some 2, some 2, some 2, some 2⟩

/-- The all-NaN 5-vector. -/
def nanVec : FeatureVec := ⟨none, none, none, none, none⟩

/-!  Small computation lemmas about the column pipeline. -/

theorem dropna_nil : dropnaFlight (addHoldFlight []) = [] := rfl

theorem dropna_single (a : Event) : dropnaFlight (addHoldFlight [a]) = [] := rfl

theorem dropna_pair (a b : Event) :
    dropnaFlight (addHoldFlight [a, b]) =
      [{ t_down_ms := a.t_down_ms, t_up_ms := a.t_up_ms, order_index := a.order_index
         hold_time := a.t_up_ms - a.t_down_ms
         flight_time := b.t_down_ms - a.t_up_ms }] := rfl

/-- C6: for every session with 0 or 1 events, `compute_features` raises no
error and returns the all-NaN feature dictionary. -/
theorem compute_features_degenerate (df0 : List Event) (h : df0.length ≤ 1) :
    compute_features df0 = nanFeatures := by
  have hlen : (List.insertionSort evLe df0).length ≤ 1 := by
    rw [List.length_insertionSort]; exact h
  unfold compute_features
  cases hs : List.insertionSort evLe df0 with
  | nil => rfl
  | cons a t =>
    cases t with
    | nil => rfl
    | cons b t' =>
      rw [hs] at hlen
      simp at hlen

theorem compute_features_degenerate_witness :
    singleSession.length ≤ 1 ∧ compute_features singleSession = nanFeatures :=
  ⟨by decide, compute_features_degenerate singleSession (by decide)⟩

/-- C10: for every session with exactly 2 events, `compute_features`
returns all five fields NaN, because the `len(df) < 2` guard runs after
the last row was dropped with the NaN flight time, so it counts flight
samples (event count minus one) rather than events. -/
theorem compute_features_two_events (df0 : List Event) (h : df0.length = 2) :
    compute_features df0 = nanFeatures := by
  have hlen : (List.insertionSort evLe df0).length = 2 := by
    rw [List.length_insertionSort]; exact h
  unfold compute_features
  cases hs : List.insertionSort evLe df0 with
  | nil => rw [hs] at hlen; simp at hlen
  | cons a t =>
    cases t with
    | nil => rw [hs] at hlen; simp at hlen
    | cons b t' =>
      cases t' with
      | nil =>
        show featuresOfSorted [a, b] = nanFeatures
        unfold featuresOfSorted
        rw [dropna_pair]
        rfl
      | cons c t'' => rw [hs] at hlen; simp at hlen

theorem compute_features_two_events_witness :
    pairSession.length = 2 ∧ compute_features pairSession = nanFeatures :=
  ⟨by decide, compute_features_two_events pairSession (by decide)⟩

/-- C1: evaluating `compute_features` at the spec's two-event example
session (`t_down=[1000,1300]`, `t_up=[1150,1450]`, `order_index=[0,1]`)
yields the all-NaN dictionary, not the advertised
`mean_hold=150, std_hold=0, mean_flight=150, std_flight=NaN,
typing_speed=2/0.45`. -/
theorem compute_features_spec_pair_is_nan :
    compute_features specPairSession = nanFeatures := rfl

/-- C2: on the three-event session `sessionA` (hold times `[50,50,80]`),
`compute_features` reports `mean_hold = 50` — the mean of the first two
hold times only, because the last event's row was dropped before
aggregation — while the mean over every event of the session is `60`. -/
theorem compute_features_mean_hold_truncated :
    (compute_features sessionA).mean_hold = some 50 ∧
      pandasMean (sessionA.map (fun e => e.t_up_ms - e.t_down_ms)) = some 60 ∧
      (50 : ℚ) ≠ 60 := by
  refine ⟨?_, ?_, by norm_num⟩
  · simp [compute_features, featuresOfSorted, List.insertionSort, List.orderedInsert, evLe,
      dropnaFlight, addHoldFlight, shiftNextDown, pandasMean, sessionA]
    norm_num
  · simp [pandasMean, sessionA]
    norm_num

/-- C3: on the three-event session `sessionA`, `compute_features` reports
`typing_speed = 40/3` — computed as `(event_count - 1)` divided by the
duration of the truncated frame (`150 ms`) — while
`event_count / (duration_ms / 1000)` over all events
(`duration_ms = 280`) is `75/7`. -/
theorem compute_features_typing_speed_truncated :
    (compute_features sessionA).typing_speed = some (40 / 3) ∧
      ((sessionA.length : ℚ) /
          ((listMax (sessionA.map (·.t_up_ms)) - listMin (sessionA.map (·.t_down_ms))) / 1000)) =
        75 / 7 ∧
      (40 / 3 : ℚ) ≠ 75 / 7 := by
  refine ⟨?_, ?_, by norm_num⟩
  · simp [compute_features, featuresOfSorted, List.insertionSort, List.orderedInsert, evLe,
      dropnaFlight, addHoldFlight, shiftNextDown, listMax, listMin, sessionA]
    norm_num
  · simp [listMax, listMin, sessionA]
    norm_num

/-!  Order invariance of the extraction (claim C9). -/

/-- Strict version of the sort key, used to show that sorting a list of
events with pairwise-distinct `order_index` values is injective on
permutation classes. -/
def evLt (a b : Event) : Prop := a.order_index < b.order_index

instance : IsAntisymm Event evLt := ⟨fun _ _ h h' => absurd h' (lt_asymm h)⟩

theorem insertionSort_eq_of_perm {xs ys : List Event} (hp : xs.Perm ys)
    (hnd : xs.Pairwise (fun a b => a.order_index ≠ b.order_index)) :
    List.insertionSort evLe xs = List.insertionSort evLe ys := by
  have hsym : Symmetric (fun a b : Event => a.order_index ≠ b.order_index) :=
    fun a b h => fun e => h e.symm
  have hperm : (List.insertionSort evLe xs).Perm (List.insertionSort evLe ys) :=
    (List.perm_insertionSort evLe xs).trans (hp.trans (List.perm_insertionSort evLe ys).symm)
  have hnd1 : (List.insertionSort evLe xs).Pairwise
      (fun a b => a.order_index ≠ b.order_index) :=
    ((List.perm_insertionSort evLe xs).pairwise_iff (fun h => hsym h)).mpr hnd
  have hnd2 : (List.insertionSort evLe ys).Pairwise
      (fun a b => a.order_index ≠ b.order_index) :=
    (hperm.pairwise_iff (fun h => hsym h)).mp hnd1
  have hstrict : ∀ l : List Event,
      l.Sorted evLe → l.Pairwise (fun a b => a.order_index ≠ b.order_index) →
        l.Sorted evLt := by
    intro l hs hn
    exact (hs.and hn).imp (fun h => lt_of_le_of_ne h.1 h.2)
  exact List.eq_of_perm_of_sorted hperm
    (hstrict _ (List.sorted_insertionSort evLe xs) hnd1)
    (hstrict _ (List.sorted_insertionSort evLe ys) hnd2)

/-- C9: for every session whose events carry pairwise-distinct
`order_index` values, permuting the input event rows (keeping each row's
`order_index` unchanged) yields an identical feature dictionary from
`compute_features`. -/
theorem compute_features_order_invariant (xs ys : List Event) (hp : xs.Perm ys)
    (hnd : xs.Pairwise (fun a b => a.order_index ≠ b.order_index)) :
    compute_features xs = compute_features ys := by
  unfold compute_features
  rw [insertionSort_eq_of_perm hp hnd]

theorem compute_features_order_invariant_witness :
    shuffledSession.Perm sessionA ∧
      shuffledSession.Pairwise (fun a b => a.order_index ≠ b.order_index) ∧
      compute_features shuffledSession = compute_features sessionA :=
  ⟨by decide, by decide,
    compute_features_order_invariant shuffledSession sessionA (by decide) (by decide)⟩

/-!  Score bookkeeping (claim C5). -/

theorem length_filter_partition (df : List FeatureRow) (pid : String) :
    (df.filter (fun r => decide (r.participant_id = pid))).length +
      (df.filter (fun r => !decide (r.participant_id = pid))).length = df.length := by
  induction df with
  | nil => rfl
  | cons r t ih =>
    by_cases h : r.participant_id = pid <;>
      simp [List.filter, h, Nat.succ_eq_add_one] <;> omega

/-- C5: `compute_scores` produces, for each template in turn, one genuine
distance per session row of the template's participant and one impostor
distance per session row of every other participant; in particular
`len(genuine) + len(impostor) = len(templates) * len(all_sessions)`. -/
theorem compute_scores_counts (df : List FeatureRow)
    (ts : List (String × FeatureVec)) :
    (compute_scores df ts).1.length =
        (ts.map (fun t => (df.filter (fun r => decide (r.participant_id = t.1))).length)).sum ∧
      (compute_scores df ts).2.length =
        (ts.map (fun t => (df.filter (fun r => decide (¬r.participant_id = t.1))).length)).sum ∧
      (compute_scores df ts).1.length + (compute_scores df ts).2.length =
        ts.length * df.length := by
  refine ⟨?_, ?_, ?_⟩
  · simp [compute_scores, Function.comp_def]
  · simp [compute_scores, Function.comp_def]
  · induction ts with
    | nil => simp [compute_scores]
    | cons t ts ih =>
      simp only [compute_scores, decide_not, List.flatMap_cons, List.length_append,
        List.length_map, List.length_cons, Nat.succ_mul] at ih ⊢
      have hpart := length_filter_partition df t.1
      omega

/-!  Template existence (claim C7) and template aggregation (claim C4). -/

theorem mem_pandasUniqueGo (xs : List String) :
    ∀ (seen : List String) (x : String),
      x ∈ pandasUniqueGo xs seen ↔ x ∈ xs ∧ x ∉ seen := by
  induction xs with
  | nil => intro seen x; simp [pandasUniqueGo]
  | cons y ys ih =>
    intro seen x
    by_cases h : y ∈ seen
    · simp only [pandasUniqueGo, if_pos h, ih, List.mem_cons]
      constructor
      · exact fun ⟨hx, hs⟩ => ⟨Or.inr hx, hs⟩
      · rintro ⟨hx | hx, hs⟩
        · exact absurd (hx ▸ h) hs
        · exact ⟨hx, hs⟩
    · simp only [pandasUniqueGo, if_neg h, List.mem_cons, ih]
      constructor
      · rintro (hx | ⟨hx, hs⟩)
        · exact ⟨Or.inl hx, hx ▸ h⟩
        · exact ⟨Or.inr hx, fun hmem => hs (Or.inr hmem)⟩
      · rintro ⟨hx | hx, hs⟩
        · exact Or.inl hx
        · by_cases hxy : x = y
          · exact Or.inl hxy
          · exact Or.inr ⟨hx, fun hmem => by
              rcases hmem with h1 | h1
              · exact hxy h1
              · exact hs h1⟩

theorem mem_pandasUnique (xs : List String) (x : String) :
    x ∈ pandasUnique xs ↔ x ∈ xs := by
  simp [pandasUnique, mem_pandasUniqueGo]

/-- The enrollment-condition rows of one participant, as filtered inside
`get_user_templates`. -/
def morningRows (df : List FeatureRow) (pid : String) : List FeatureRow :=
  (df.filter (fun r => decide (r.participant_id = pid))).filter
    (fun r => decide (r.condition = "Morning"))

/-- Unfolding of `get_user_templates` through its `filterMap`. -/
theorem mem_get_user_templates {df : List FeatureRow} {pid : String} {v : FeatureVec} :
    (pid, v) ∈ get_user_templates df ↔
      pid ∈ pandasUnique (df.map (·.participant_id)) ∧
        morningRows df pid ≠ [] ∧ v = meanVec (morningRows df pid) := by
  constructor
  · intro h
    rw [get_user_templates, List.mem_filterMap] at h
    obtain ⟨p, hp, hf⟩ := h
    dsimp only at hf
    by_cases h0 : ((df.filter (fun r => decide (r.participant_id = p))).filter
        (fun r => decide (r.condition = "Morning"))).length = 0
    · rw [if_pos h0] at hf; cases hf
    · rw [if_neg h0] at hf
      have hpair := Option.some.inj hf
      have hpid : p = pid := congrArg Prod.fst hpair
      subst hpid
      refine ⟨hp, ?_, (congrArg Prod.snd hpair).symm⟩
      intro hnil
      exact h0 (by rw [morningRows] at hnil; rw [hnil]; rfl)
  · rintro ⟨hp, hne, hv⟩
    rw [get_user_templates, List.mem_filterMap]
    refine ⟨pid, hp, ?_⟩
    dsimp only
    rw [if_neg (fun h0 => hne ?_), hv]
    rw [morningRows]
    exact List.length_eq_zero.mp h0

/-- C7: the mapping built by `get_user_templates` contains a key for a
participant if and only if that participant has at least one row whose
condition is the enrollment condition `"Morning"`. -/
theorem get_user_templates_key_iff (df : List FeatureRow) (pid : String) :
    (∃ v, (pid, v) ∈ get_user_templates df) ↔
      ∃ r ∈ df, r.participant_id = pid ∧ r.condition = "Morning" := by
  constructor
  · rintro ⟨v, hv⟩
    obtain ⟨-, hne, -⟩ := mem_get_user_templates.mp hv
    obtain ⟨r, hr⟩ := List.exists_mem_of_ne_nil _ hne
    rw [morningRows, List.mem_filter, List.mem_filter] at hr
    exact ⟨r, hr.1.1, by simpa using hr.1.2, by simpa using hr.2⟩
  · rintro ⟨r, hr, hpid, hcond⟩
    refine ⟨meanVec (morningRows df pid), mem_get_user_templates.mpr ⟨?_, ?_, rfl⟩⟩
    · rw [mem_pandasUnique, List.mem_map]
      exact ⟨r, hr, hpid⟩
    · intro hnil
      have : r ∈ morningRows df pid := by
        rw [morningRows, List.mem_filter, List.mem_filter]
        exact ⟨⟨hr, by simpa using hpid⟩, by simpa using hcond⟩
      rw [hnil] at this
      cases this

theorem pandasMeanSkipna_eq_none_iff (xs : List (Option ℚ)) :
    pandasMeanSkipna xs = none ↔ ∀ x ∈ xs, x = none := by
  rw [pandasMeanSkipna]
  by_cases h : (xs.filterMap id).length = 0
  · rw [if_pos h]
    rw [List.length_eq_zero, List.filterMap_eq_nil_iff] at h
    simpa using h
  · rw [if_neg h]
    refine iff_of_false (by simp) ?_
    intro hall
    exact h (by
      rw [List.length_eq_zero, List.filterMap_eq_nil_iff]
      simpa using hall)

/-- C4 (amended): the element-wise mean taken by `get_user_templates`
skips NaN cells (pandas `skipna=True`); a template's value in a feature
column is NaN exactly when every qualifying enrollment session of that
participant has NaN in that column. -/
theorem get_user_templates_nan_skipping (df : List FeatureRow) (pid : String)
    (v : FeatureVec) (h : (pid, v) ∈ get_user_templates df) :
    (v.mean_hold = none ↔ ∀ r ∈ morningRows df pid, r.mean_hold = none) ∧
      (v.std_hold = none ↔ ∀ r ∈ morningRows df pid, r.std_hold = none) ∧
      (v.mean_flight = none ↔ ∀ r ∈ morningRows df pid, r.mean_flight = none) ∧
      (v.std_flight = none ↔ ∀ r ∈ morningRows df pid, r.std_flight = none) ∧
      (v.typing_speed = none ↔ ∀ r ∈ morningRows df pid, r.typing_speed = none) := by
  obtain ⟨-, -, hv⟩ := mem_get_user_templates.mp h
  subst hv
  refine ⟨?_, ?_, ?_, ?_, ?_⟩ <;>
    simp [meanVec, pandasMeanSkipna_eq_none_iff]

theorem get_user_templates_nan_skipping_witness :
    ("A", (⟨none, some 2, some 2, some 2, some 2⟩ : FeatureVec)) ∈
        get_user_templates [rowHalfNan] ∧
      ((⟨none, some 2, some 2, some 2, some 2⟩ : FeatureVec).mean_hold = none ↔
          ∀ r ∈ morningRows [rowHalfNan] "A", r.mean_hold = none) ∧
      ((⟨none, some 2, some 2, some 2, some 2⟩ : FeatureVec).std_hold = none ↔
          ∀ r ∈ morningRows [rowHalfNan] "A", r.std_hold = none) ∧
      ((⟨none, some 2, some 2, some 2, some 2⟩ : FeatureVec).mean_flight = none ↔
          ∀ r ∈ morningRows [rowHalfNan] "A", r.mean_flight = none) ∧
      ((⟨none, some 2, some 2, some 2, some 2⟩ : FeatureVec).std_flight = none ↔
          ∀ r ∈ morningRows [rowHalfNan] "A", r.std_flight = none) ∧
      ((⟨none, some 2, some 2, some 2, some 2⟩ : FeatureVec).typing_speed = none ↔
          ∀ r ∈ morningRows [rowHalfNan] "A", r.typing_speed = none) := by
  have hm : ("A", (⟨none, some 2, some 2, some 2, some 2⟩ : FeatureVec)) ∈
      get_user_templates [rowHalfNan] := by
    simp [get_user_templates, pandasUnique, pandasUniqueGo, meanVec, pandasMeanSkipna,
      rowHalfNan]
  exact ⟨hm, get_user_templates_nan_skipping [rowHalfNan] "A" _ hm⟩

/-- C4 (counterexample): participant `A` has a qualifying enrollment row
with NaN `mean_hold` (`rowNanHold`), yet the template's `mean_hold` is
`100`, not NaN — the column mean skipped the NaN entry. -/
theorem get_user_templates_nan_not_propagated :
    rowNanHold.condition = "Morning" ∧ rowNanHold.mean_hold = none ∧
      get_user_templates [rowNanHold, rowFullHold] =
        [("A", ⟨some 100, some 1, some 1, some 1, some 1⟩)] := by
  refine ⟨rfl, rfl, ?_⟩
  simp [get_user_templates, pandasUnique, pandasUniqueGo, meanVec, pandasMeanSkipna,
    rowNanHold, rowFullHold]

/-!  Self-distance of the scorer's metric (claim C8). -/

/-- C8 (amended): for every 5-vector `T` with no NaN component,
`euclidean T T = 0`. -/
theorem euclidean_self_eq_zero (v : FeatureVec) (h : ∀ c ∈ v.comps, c ≠ none) :
    euclidean v v = some 0 := by
  obtain ⟨f1, f2, f3, f4, f5⟩ := v
  simp only [FeatureVec.comps, List.mem_cons, List.not_mem_nil, or_false, forall_eq_or_imp,
    forall_eq] at h
  obtain ⟨a1, e1⟩ := Option.ne_none_iff_exists.mp h.1
  obtain ⟨a2, e2⟩ := Option.ne_none_iff_exists.mp h.2.1
  obtain ⟨a3, e3⟩ := Option.ne_none_iff_exists.mp h.2.2.1
  obtain ⟨a4, e4⟩ := Option.ne_none_iff_exists.mp h.2.2.2.1
  obtain ⟨a5, e5⟩ := Option.ne_none_iff_exists.mp h.2.2.2.2
  subst e1 e2 e3 e4 e5
  simp [euclidean, FeatureVec.comps, nanSub, nanSumSq]

theorem euclidean_self_eq_zero_witness :
    (∀ c ∈ (⟨some 1, some 2, some 3, some 4, some 5⟩ : FeatureVec).comps, c ≠ none) ∧
      euclidean ⟨some 1, some 2, some 3, some 4, some 5⟩
        ⟨some 1, some 2, some 3, some 4, some 5⟩ = some 0 :=
  ⟨by decide, euclidean_self_eq_zero ⟨some 1, some 2, some 3, some 4, some 5⟩ (by decide)⟩

/-- C8 (counterexample): the all-NaN session row `rowAllNan` yields the
template `nanVec` for participant `A`, and the self-distance of that
template is NaN, not `0`. -/
theorem euclidean_self_nan_template :
    get_user_templates [rowAllNan] = [("A", nanVec)] ∧
      euclidean nanVec nanVec = none ∧
      euclidean nanVec nanVec ≠ some 0 := by
  refine ⟨?_, rfl, by simp [euclidean, nanVec, FeatureVec.comps, nanSub, nanSumSq]⟩
  rfl
